import Mathlib

/-!
Shallow embedding of `src/main.rs` of the solar-system simulator.

The three per-frame systems (`gravity_system`, `movement_system`,
`camera_controller`) and the one-time `setup_scene` are translated from the
Rust source.  `f32` arithmetic is embedded as exact real arithmetic; `Vec3`
is a record of three reals with `length` given by `Real.sqrt`.
-/

noncomputable section

/-- Three-component vector, embedding bevy/glam `Vec3` (components are `f32`
in the source, embedded as `ℝ`). -/
structure Vec3 where
  x : ℝ
  y : ℝ
  z : ℝ
deriving DecidableEq

namespace Vec3

instance : Zero Vec3 := ⟨⟨0, 0, 0⟩⟩

instance : Add Vec3 := ⟨fun a b => ⟨a.x + b.x, a.y + b.y, a.z + b.z⟩⟩

instance : Sub Vec3 := ⟨fun a b => ⟨a.x - b.x, a.y - b.y, a.z - b.z⟩⟩

instance : Neg Vec3 := ⟨fun a => ⟨-a.x, -a.y, -a.z⟩⟩

/-- Scalar multiplication `v * r` (glam multiplies a vector by an `f32`). -/
def smul (r : ℝ) (v : Vec3) : Vec3 := ⟨r * v.x, r * v.y, r * v.z⟩

/-- Dot product. -/
def dot (a b : Vec3) : ℝ := a.x * b.x + a.y * b.y + a.z * b.z

/-- glam `Vec3::length`: Euclidean norm. -/
def length (v : Vec3) : ℝ := Real.sqrt (v.dot v)

/-- glam `Vec3::normalize_or_zero`: `v / ‖v‖` when the norm is positive,
the zero vector otherwise. -/
def normalize_or_zero (v : Vec3) : Vec3 :=
  if 0 < v.length then smul (1 / v.length) v else 0

@[simp] theorem zero_x : (0 : Vec3).x = 0 := rfl

@[simp] theorem zero_y : (0 : Vec3).y = 0 := rfl

@[simp] theorem zero_z : (0 : Vec3).z = 0 := rfl

@[simp] theorem add_x (a b : Vec3) : (a + b).x = a.x + b.x := rfl

@[simp] theorem add_y (a b : Vec3) : (a + b).y = a.y + b.y := rfl

@[simp] theorem add_z (a b : Vec3) : (a + b).z = a.z + b.z := rfl

@[simp] theorem sub_x (a b : Vec3) : (a - b).x = a.x - b.x := rfl

@[simp] theorem sub_y (a b : Vec3) : (a - b).y = a.y - b.y := rfl

@[simp] theorem sub_z (a b : Vec3) : (a - b).z = a.z - b.z := rfl

@[simp] theorem neg_x (a : Vec3) : (-a).x = -a.x := rfl

@[simp] theorem neg_y (a : Vec3) : (-a).y = -a.y := rfl

@[simp] theorem neg_z (a : Vec3) : (-a).z = -a.z := rfl

@[simp] theorem smul_x (r : ℝ) (v : Vec3) : (smul r v).x = r * v.x := rfl

@[simp] theorem smul_y (r : ℝ) (v : Vec3) : (smul r v).y = r * v.y := rfl

@[simp] theorem smul_z (r : ℝ) (v : Vec3) : (smul r v).z = r * v.z := rfl

theorem ext_iff {a b : Vec3} : a = b ↔ a.x = b.x ∧ a.y = b.y ∧ a.z = b.z := by
  constructor
  · rintro rfl; exact ⟨rfl, rfl, rfl⟩
  · rcases a with ⟨ax, ay, az⟩
    rcases b with ⟨bx, by_, bz⟩
    rintro ⟨h1, h2, h3⟩
    simp_all

theorem dot_self_nonneg (v : Vec3) : 0 ≤ v.dot v := by
  have hx := mul_self_nonneg v.x
  have hy := mul_self_nonneg v.y
  have hz := mul_self_nonneg v.z
  unfold dot
  linarith

theorem length_nonneg (v : Vec3) : 0 ≤ v.length := Real.sqrt_nonneg _

theorem length_sq (v : Vec3) : v.length * v.length = v.dot v := by
  unfold length
  exact Real.mul_self_sqrt (dot_self_nonneg v)

@[simp] theorem smul_zero_vec (r : ℝ) : smul r (0 : Vec3) = 0 := by
  simp [smul, ext_iff]

@[simp] theorem zero_smul_vec (v : Vec3) : smul 0 v = 0 := by
  simp [smul, ext_iff]

theorem smul_add_vec (r : ℝ) (a b : Vec3) :
    smul r (a + b) = smul r a + smul r b := by
  simp [smul, ext_iff, mul_add]

theorem smul_smul_vec (r s : ℝ) (v : Vec3) :
    smul r (smul s v) = smul (r * s) v := by
  simp [smul, ext_iff, mul_assoc]

theorem add_comm_vec (a b : Vec3) : a + b = b + a := by
  simp [ext_iff]; exact ⟨add_comm _ _, add_comm _ _, add_comm _ _⟩

theorem add_assoc_vec (a b c : Vec3) : a + b + c = a + (b + c) := by
  simp [ext_iff]; exact ⟨add_assoc _ _ _, add_assoc _ _ _, add_assoc _ _ _⟩

@[simp] theorem add_zero_vec (a : Vec3) : a + 0 = a := by
  simp [ext_iff]

@[simp] theorem zero_add_vec (a : Vec3) : (0 : Vec3) + a = a := by
  simp [ext_iff]

theorem length_smul_nonneg (r : ℝ) (v : Vec3) (hr : 0 ≤ r) :
    (smul r v).length = r * v.length := by
  unfold length
  have : (smul r v).dot (smul r v) = (r * r) * v.dot v := by
    simp [smul, dot]; ring
  rw [this, Real.sqrt_mul (mul_self_nonneg r), Real.sqrt_mul_self hr]

/-- The norm of `normalize_or_zero v` is `0` or `1`; in particular it is at
most `1`. -/
theorem length_normalize_or_zero_le (v : Vec3) :
    (normalize_or_zero v).length ≤ 1 := by
  unfold normalize_or_zero
  by_cases h : 0 < v.length
  · rw [if_pos h, length_smul_nonneg _ _ (by positivity)]
    rw [one_div, inv_mul_cancel₀ (ne_of_gt h)]
  · rw [if_neg h]
    simp [length, dot]

end Vec3

/-- A celestial body: the `Name`, `Mass`, `Transform` (position only is
relevant to the simulation) and `Velocity` components attached to each
`CelestialBody` entity. -/
structure Body where
  name : String
  mass : ℝ
  position : Vec3
  velocity : Vec3

/-- `const GRAVITATIONAL_CONSTANT: f32 = 10.0;` -/
def GRAVITATIONAL_CONSTANT : ℝ := 10.0

/-- One iteration of the `while let` loop of `gravity_system` on the pair
`(b1, b2)`: skip if the distance is below `2.0`, otherwise add the
inverse-square velocity deltas (lines 42–61 of `src/main.rs`).  `dt` is the
already-clamped frame time. -/
def gravityPairStep (dt : ℝ) (b1 b2 : Body) : Body × Body :=
  let direction := b2.position - b1.position
  let distance := direction.length
  if distance < 2.0 then (b1, b2)
  else
    let force_magnitude :=
      GRAVITATIONAL_CONSTANT * b1.mass * b2.mass / (distance * distance)
    let force_direction := Vec3.smul (1 / distance) direction
    let force_multiplier : ℝ := 0.01
    let dv1 :=
      Vec3.smul (force_magnitude / b1.mass * dt * force_multiplier) force_direction
    let dv2 :=
      Vec3.smul (force_magnitude / b2.mass * dt * force_multiplier) force_direction
    ({ b1 with velocity := b1.velocity + dv1 },
     { b2 with velocity := b2.velocity - dv2 })

/-- Visit the pairs `(b, x)` for `x` in `rest` in order, threading the updated
bodies through, as `iter_combinations_mut` does for a fixed first element. -/
def gravityVisitHead (dt : ℝ) (b : Body) (rest : List Body) :
    Body × List Body :=
  match rest with
  | [] => (b, [])
  | x :: xs =>
    let p := gravityPairStep dt b x
    let q := gravityVisitHead dt p.1 xs
    (q.1, p.2 :: q.2)

theorem gravityVisitHead_snd_length (dt : ℝ) (b : Body) (rest : List Body) :
    (gravityVisitHead dt b rest).2.length = rest.length := by
  induction rest generalizing b with
  | nil => rfl
  | cons x xs ih => simp [gravityVisitHead, ih]

/-- The full pairwise pass of `gravity_system` over the query results, in
`iter_combinations_mut` order: `(0,1), (0,2), …, (1,2), …`. -/
def gravityPass (dt : ℝ) (bodies : List Body) : List Body :=
  match bodies with
  | [] => []
  | b :: rest =>
    let p := gravityVisitHead dt b rest
    p.1 :: gravityPass dt p.2
termination_by bodies.length
decreasing_by simp [gravityVisitHead_snd_length]

/-- `gravity_system` (lines 35–62): clamps the frame time with
`time.delta_seconds().min(1.0/60.0)` and runs the pairwise pass. -/
def gravity_system (delta_seconds : ℝ) (bodies : List Body) : List Body :=
  let dt := min delta_seconds (1.0 / 60.0)
  gravityPass dt bodies

/-- `movement_system` (lines 65–73): clamps the frame time and advances every
body by `translation += velocity * dt`. -/
def movement_system (delta_seconds : ℝ) (bodies : List Body) : List Body :=
  let dt := min delta_seconds (1.0 / 60.0)
  bodies.map fun b => { b with position := b.position + Vec3.smul dt b.velocity }

/-- A buffered `MouseMotion` event with its `delta` components. -/
structure MouseMotion where
  dx : ℝ
  dy : ℝ

/-- Pressed state of the keys polled by `camera_controller`. -/
structure KeyState where
  keyW : Bool
  keyS : Bool
  keyA : Bool
  keyD : Bool
  space : Bool
  shiftLeft : Bool

/-- The camera `Transform`.  The rotation quaternion is represented by the
yaw/pitch pair that `to_euler(EulerRot::YXZ)` extracts from it: line 118
rebuilds the rotation as `Quat::from_axis_angle(Y, yaw) *
Quat::from_axis_angle(X, pitch)`, which is exactly the YXZ Euler rotation
with roll `0`, so yaw and pitch determine the quaternion completely. -/
structure CameraTransform where
  translation : Vec3
  yaw : ℝ
  pitch : ℝ

/-- The `CameraController` component: `sensitivity` and `speed`. -/
structure CameraController where
  sensitivity : ℝ
  speed : ℝ

/-- `transform.local_z()`: the rotated unit `Z` axis.  For the rotation
`RotY(yaw) * RotX(pitch)` this is
`(sin yaw · cos pitch, −sin pitch, cos yaw · cos pitch)`. -/
def localZ (yaw pitch : ℝ) : Vec3 :=
  ⟨Real.sin yaw * Real.cos pitch, -Real.sin pitch,
   Real.cos yaw * Real.cos pitch⟩

/-- Lines 84–107: accumulate the movement vector from the pressed keys.
`velocity` starts at `Vec3::ZERO`; W/S add/subtract `forward`, A/D
subtract/add `right`, Space/ShiftLeft add/subtract `Vec3::Y`. -/
def moveVelocity (t : CameraTransform) (keys : KeyState) : Vec3 :=
  let local_z := localZ t.yaw t.pitch
  let forward : Vec3 := -⟨local_z.x, 0, local_z.z⟩
  let right : Vec3 := ⟨local_z.z, 0, -local_z.x⟩
  let v0 : Vec3 := 0
  let v1 := if keys.keyW then v0 + forward else v0
  let v2 := if keys.keyS then v1 - forward else v1
  let v3 := if keys.keyA then v2 - right else v2
  let v4 := if keys.keyD then v3 + right else v3
  let v5 := if keys.space then v4 + ⟨0, 1, 0⟩ else v4
  let v6 := if keys.shiftLeft then v5 - ⟨0, 1, 0⟩ else v5
  v6

/-- Lines 113–118, one buffered mouse event: re-read yaw/pitch from the
rotation, subtract `delta * sensitivity * time.delta_seconds()` (the RAW
frame time — `camera_controller` never clamps it), clamp pitch to
`[-1.54, 1.54]`, and rebuild the rotation. -/
def mouseLookStep (sensitivity delta_seconds : ℝ) (yp : ℝ × ℝ)
    (e : MouseMotion) : ℝ × ℝ :=
  let yaw := yp.1 - e.dx * sensitivity * delta_seconds
  let pitch := yp.2 - e.dy * sensitivity * delta_seconds
  (yaw, max (-1.54) (min pitch 1.54))

/-- `camera_controller` (lines 76–122): translate by
`normalize_or_zero(velocity) * time.delta_seconds() * speed` (raw frame
time), then, if the right mouse button is held, consume the buffered mouse
events in order. -/
def camera_controller (delta_seconds : ℝ) (events : List MouseMotion)
    (mouseRightPressed : Bool) (keys : KeyState) (t : CameraTransform)
    (controller : CameraController) : CameraTransform :=
  let velocity := (moveVelocity t keys).normalize_or_zero
  let t1 := { t with translation :=
    t.translation + Vec3.smul (delta_seconds * controller.speed) velocity }
  if mouseRightPressed then
    let yp := events.foldl
      (mouseLookStep controller.sensitivity delta_seconds) (t1.yaw, t1.pitch)
    { t1 with yaw := yp.1, pitch := yp.2 }
  else
    t1

/-- The `"Sun"` entity of `setup_scene`: mass `1000.0`, at the origin,
`Velocity(Vec3::ZERO)`. -/
def sun : Body :=
  { name := "Sun", mass := 1000.0, position := ⟨0, 0, 0⟩, velocity := 0 }

/-- The `"Inner Planet"` entity: mass `5.0`, at `(12, 0, 0)`, velocity
`(0, 0, 0.8)`. -/
def innerPlanet : Body :=
  { name := "Inner Planet", mass := 5.0, position := ⟨12.0, 0, 0⟩,
    velocity := ⟨0, 0, 0.8⟩ }

/-- The `"Middle Planet"` entity: mass `8.0`, at `(20, 0, 0)`, velocity
`(0, 0, 0.6)`. -/
def middlePlanet : Body :=
  { name := "Middle Planet", mass := 8.0, position := ⟨20.0, 0, 0⟩,
    velocity := ⟨0, 0, 0.6⟩ }

/-- The `"Outer Planet"` entity: mass `6.0`, at `(30, 0, 0)`, velocity
`(0, 0, 0.4)`. -/
def outerPlanet : Body :=
  { name := "Outer Planet", mass := 6.0, position := ⟨30.0, 0, 0⟩,
    velocity := ⟨0, 0, 0.4⟩ }

/-- The celestial bodies spawned by `setup_scene` (lines 143–209), in spawn
order.  The camera, point light and ambient light carry no `CelestialBody`
component and take no part in the simulation. -/
def setup_scene : List Body := [sun, innerPlanet, middlePlanet, outerPlanet]

/-- Total momentum `Σ mass · velocity` over a list of bodies. -/
def momentum : List Body → Vec3
  | [] => 0
  | b :: rest => Vec3.smul b.mass b.velocity + momentum rest

/-! ### Helper lemmas -/

theorem length_axis_x (a : ℝ) (h : 0 ≤ a) : (⟨a, 0, 0⟩ : Vec3).length = a := by
  unfold Vec3.length Vec3.dot
  simp [Real.sqrt_mul_self h]

theorem length_axis_z (a : ℝ) (h : 0 ≤ a) : (⟨0, 0, a⟩ : Vec3).length = a := by
  unfold Vec3.length Vec3.dot
  simp [Real.sqrt_mul_self h]

/-- Unfolding of `gravityPairStep` when the distance check does not fire. -/
theorem gravityPairStep_of_far (dt : ℝ) (b1 b2 : Body)
    (h : 2.0 ≤ (b2.position - b1.position).length) :
    (gravityPairStep dt b1 b2).1.velocity = b1.velocity + Vec3.smul
        (GRAVITATIONAL_CONSTANT * b1.mass * b2.mass /
            ((b2.position - b1.position).length *
              (b2.position - b1.position).length) / b1.mass * dt * 0.01)
        (Vec3.smul (1 / (b2.position - b1.position).length)
          (b2.position - b1.position)) ∧
    (gravityPairStep dt b1 b2).2.velocity = b2.velocity - Vec3.smul
        (GRAVITATIONAL_CONSTANT * b1.mass * b2.mass /
            ((b2.position - b1.position).length *
              (b2.position - b1.position).length) / b2.mass * dt * 0.01)
        (Vec3.smul (1 / (b2.position - b1.position).length)
          (b2.position - b1.position)) := by
  simp only [gravityPairStep]
  rw [if_neg (not_lt.mpr h)]
  exact ⟨rfl, rfl⟩

/-- `gravityPairStep` leaves names, masses and positions of both bodies
untouched. -/
theorem gravityPairStep_static (dt : ℝ) (b1 b2 : Body) :
    ((gravityPairStep dt b1 b2).1.name = b1.name ∧
     (gravityPairStep dt b1 b2).1.mass = b1.mass ∧
     (gravityPairStep dt b1 b2).1.position = b1.position) ∧
    ((gravityPairStep dt b1 b2).2.name = b2.name ∧
     (gravityPairStep dt b1 b2).2.mass = b2.mass ∧
     (gravityPairStep dt b1 b2).2.position = b2.position) := by
  simp only [gravityPairStep]
  split <;> simp

/-- Projection of a body to its fields not touched by `gravity_system`. -/
def staticPart (b : Body) : String × ℝ × Vec3 := (b.name, b.mass, b.position)

theorem gravityVisitHead_static (dt : ℝ) (b : Body) (rest : List Body) :
    staticPart (gravityVisitHead dt b rest).1 = staticPart b ∧
    (gravityVisitHead dt b rest).2.map staticPart = rest.map staticPart := by
  induction rest generalizing b with
  | nil => exact ⟨rfl, rfl⟩
  | cons x xs ih =>
    obtain ⟨⟨hn1, hm1, hp1⟩, hn2, hm2, hp2⟩ := gravityPairStep_static dt b x
    obtain ⟨ih1, ih2⟩ := ih (gravityPairStep dt b x).1
    refine ⟨?_, ?_⟩
    · rw [gravityVisitHead]
      dsimp only
      rw [ih1]
      simp [staticPart, hn1, hm1, hp1]
    · rw [gravityVisitHead]
      dsimp only
      rw [List.map_cons, ih2]
      simp [staticPart, hn2, hm2, hp2]

theorem gravityPass_static (dt : ℝ) (bodies : List Body) :
    (gravityPass dt bodies).map staticPart = bodies.map staticPart := by
  generalize hn : bodies.length = n
  induction n using Nat.strong_induction_on generalizing bodies with
  | _ n ih =>
    cases bodies with
    | nil => rw [gravityPass]
    | cons b rest =>
      obtain ⟨h1, h2⟩ := gravityVisitHead_static dt b rest
      have hlen : (gravityVisitHead dt b rest).2.length < n := by
        rw [gravityVisitHead_snd_length]
        simp at hn
        omega
      simp only [gravityPass]
      rw [List.map_cons, List.map_cons,
        ih (gravityVisitHead dt b rest).2.length hlen
          (gravityVisitHead dt b rest).2 rfl, h1, h2]

/-- The difference of two points on the x-axis and its norm. -/
theorem dist_x_axis (a b : ℝ) (h : a ≤ b) :
    ((⟨b, 0, 0⟩ : Vec3) - ⟨a, 0, 0⟩).length = b - a := by
  have hv : (⟨b, 0, 0⟩ : Vec3) - ⟨a, 0, 0⟩ = ⟨b - a, 0, 0⟩ := by
    simp [Vec3.ext_iff]
  rw [hv, length_axis_x _ (by linarith)]

/-- `gravityPairStep` preserves the momentum of the pair, skipped or not:
when the force is applied, `mass1 · (force/mass1)` and `mass2 · (force/mass2)`
both recover the same force magnitude. -/
theorem gravityPairStep_momentum (dt : ℝ) (b1 b2 : Body) :
    Vec3.smul (gravityPairStep dt b1 b2).1.mass
        (gravityPairStep dt b1 b2).1.velocity +
      Vec3.smul (gravityPairStep dt b1 b2).2.mass
        (gravityPairStep dt b1 b2).2.velocity =
      Vec3.smul b1.mass b1.velocity + Vec3.smul b2.mass b2.velocity := by
  simp only [gravityPairStep]
  split
  · rfl
  · rename_i hfar
    have hd : (b2.position - b1.position).length ≠ 0 := by
      have h2 := not_lt.mp hfar
      intro h0
      rw [h0] at h2
      norm_num at h2
    rw [Vec3.ext_iff]
    refine ⟨?_, ?_, ?_⟩ <;>
    · simp only [Vec3.add_x, Vec3.add_y, Vec3.add_z, Vec3.sub_x, Vec3.sub_y,
        Vec3.sub_z, Vec3.smul_x, Vec3.smul_y, Vec3.smul_z]
      by_cases hm1 : b1.mass = 0
      · simp [hm1]
      · by_cases hm2 : b2.mass = 0
        · simp [hm2]
        · field_simp
          ring

theorem gravityVisitHead_momentum (dt : ℝ) (b : Body) (rest : List Body) :
    momentum ((gravityVisitHead dt b rest).1 :: (gravityVisitHead dt b rest).2) =
      momentum (b :: rest) := by
  induction rest generalizing b with
  | nil => rfl
  | cons x xs ih =>
    have hpair := gravityPairStep_momentum dt b x
    have hih := ih (gravityPairStep dt b x).1
    rw [gravityVisitHead]
    dsimp only
    simp only [momentum] at hpair hih ⊢
    rw [Vec3.ext_iff] at hpair hih ⊢
    obtain ⟨hp1, hp2, hp3⟩ := hpair
    obtain ⟨hi1, hi2, hi3⟩ := hih
    simp only [Vec3.add_x, Vec3.add_y, Vec3.add_z] at hp1 hp2 hp3 hi1 hi2 hi3 ⊢
    refine ⟨by linarith, by linarith, by linarith⟩

theorem gravityPass_momentum (dt : ℝ) (bodies : List Body) :
    momentum (gravityPass dt bodies) = momentum bodies := by
  generalize hn : bodies.length = n
  induction n using Nat.strong_induction_on generalizing bodies with
  | _ n ih =>
    cases bodies with
    | nil => rw [gravityPass]
    | cons b rest =>
      have hlen : (gravityVisitHead dt b rest).2.length < n := by
        rw [gravityVisitHead_snd_length]
        simp at hn
        omega
      have hvh := gravityVisitHead_momentum dt b rest
      simp only [gravityPass, momentum]
      rw [ih (gravityVisitHead dt b rest).2.length hlen
        (gravityVisitHead dt b rest).2 rfl]
      simpa [momentum] using hvh

/-- A mass-1000 body at the origin, used to instantiate the spec's
two-body scenario. -/
def heavyBody : Body :=
  { name := "heavy", mass := 1000.0, position := ⟨0, 0, 0⟩, velocity := 0 }

/-- A mass-5 body at distance 12 from `heavyBody`, used to instantiate the
spec's two-body scenario. -/
def lightBody : Body :=
  { name := "light", mass := 5.0, position := ⟨12.0, 0, 0⟩, velocity := 0 }

theorem heavy_light_vec : lightBody.position - heavyBody.position = ⟨12, 0, 0⟩ := by
  rw [Vec3.ext_iff]
  norm_num [lightBody, heavyBody]

theorem heavy_light_dist : (lightBody.position - heavyBody.position).length = 12 := by
  rw [heavy_light_vec, length_axis_x 12 (by norm_num)]

theorem heavy_light_far : 2.0 ≤ (lightBody.position - heavyBody.position).length := by
  rw [heavy_light_dist]
  norm_num

/-! ### Claims -/

/-- C4: for every pair of bodies at distance strictly below 2.0 world
units the force accumulator applies no change at all — the pair is skipped
entirely (and a two-body pass leaves both bodies unchanged). -/
theorem gravity_skips_close_pairs (delta_seconds dt : ℝ) (b1 b2 : Body)
    (h : (b2.position - b1.position).length < 2.0) :
    gravityPairStep dt b1 b2 = (b1, b2) ∧
    gravity_system delta_seconds [b1, b2] = [b1, b2] := by
  have hstep : ∀ d : ℝ, gravityPairStep d b1 b2 = (b1, b2) := by
    intro d
    simp only [gravityPairStep]
    rw [if_pos h]
  refine ⟨hstep dt, ?_⟩
  simp only [gravity_system, gravityPass, gravityVisitHead, hstep]

/-- C4 witness: two unit-mass bodies one unit apart are left untouched. -/
theorem gravity_skips_close_pairs_witness :
    ((⟨"B", 4, ⟨1, 0, 0⟩, 0⟩ : Body).position -
        (⟨"A", 3, ⟨0, 0, 0⟩, 0⟩ : Body).position).length < 2.0 ∧
    gravityPairStep (1 / 60) ⟨"A", 3, ⟨0, 0, 0⟩, 0⟩ ⟨"B", 4, ⟨1, 0, 0⟩, 0⟩ =
      (⟨"A", 3, ⟨0, 0, 0⟩, 0⟩, ⟨"B", 4, ⟨1, 0, 0⟩, 0⟩) := by
  have hd : ((⟨"B", 4, ⟨1, 0, 0⟩, 0⟩ : Body).position -
      (⟨"A", 3, ⟨0, 0, 0⟩, 0⟩ : Body).position).length = 1 := by
    show (Vec3.mk 1 0 0 - Vec3.mk 0 0 0).length = 1
    have : (Vec3.mk 1 0 0 - Vec3.mk 0 0 0) = ⟨1, 0, 0⟩ := by
      simp [Vec3.ext_iff]
    rw [this, length_axis_x 1 (by norm_num)]
  have h : ((⟨"B", 4, ⟨1, 0, 0⟩, 0⟩ : Body).position -
      (⟨"A", 3, ⟨0, 0, 0⟩, 0⟩ : Body).position).length < 2.0 := by
    rw [hd]; norm_num
  exact ⟨h, (gravity_skips_close_pairs (1 / 60) (1 / 60) _ _ h).1⟩

/-- C5: the integrator sets every position to exactly
`position + velocity · dt` with `dt` the clamped frame time, and with a zero
frame time it is a no-op. -/
theorem movement_system_spec (delta_seconds : ℝ) (bodies : List Body) :
    (movement_system delta_seconds bodies).map (fun b => b.position) =
      bodies.map (fun b => b.position +
        Vec3.smul (min delta_seconds (1.0 / 60.0)) b.velocity) ∧
    movement_system 0 bodies = bodies := by
  have hmin : min (0 : ℝ) (1.0 / 60.0) = 0 := by norm_num
  constructor
  · simp only [movement_system]
    rw [List.map_map]
    rfl
  · simp only [movement_system, hmin]
    induction bodies with
    | nil => rfl
    | cons b rest ih =>
      rw [List.map_cons, ih]
      congr 1
      simp

/-- C10: the force accumulator changes only velocities (names, masses and
positions are preserved elementwise), and the integrator changes only
positions (names, masses and velocities are preserved elementwise); hence
mass is constant across every per-frame update. -/
theorem frame_effects (delta_seconds : ℝ) (bodies : List Body) :
    (gravity_system delta_seconds bodies).map
        (fun b => (b.name, b.mass, b.position)) =
      bodies.map (fun b => (b.name, b.mass, b.position)) ∧
    (movement_system delta_seconds bodies).map
        (fun b => (b.name, b.mass, b.velocity)) =
      bodies.map (fun b => (b.name, b.mass, b.velocity)) := by
  constructor
  · exact gravityPass_static (min delta_seconds (1.0 / 60.0)) bodies
  · unfold movement_system
    rw [List.map_map]
    rfl

/-- C1: a gravity pass over a pair of bodies at distance ≥ 2.0 changes the
first body's velocity by `unit(direction) · G·m1·m2/d² / m1 · dt · 0.01`
toward the second body, and the second body's by the same expression with
`m2` in the divisor, in the opposite direction, with `G = 10.0` and `dt` the
clamped frame time. -/
theorem gravity_two_body_velocity (delta_seconds : ℝ) (b1 b2 : Body)
    (h : 2.0 ≤ (b2.position - b1.position).length) :
    (gravity_system delta_seconds [b1, b2]).map (fun b => b.velocity) =
      [b1.velocity + Vec3.smul
          (GRAVITATIONAL_CONSTANT * b1.mass * b2.mass /
              ((b2.position - b1.position).length *
                (b2.position - b1.position).length) / b1.mass *
            min delta_seconds (1.0 / 60.0) * 0.01)
          (Vec3.smul (1 / (b2.position - b1.position).length)
            (b2.position - b1.position)),
       b2.velocity - Vec3.smul
          (GRAVITATIONAL_CONSTANT * b1.mass * b2.mass /
              ((b2.position - b1.position).length *
                (b2.position - b1.position).length) / b2.mass *
            min delta_seconds (1.0 / 60.0) * 0.01)
          (Vec3.smul (1 / (b2.position - b1.position).length)
            (b2.position - b1.position))] := by
  have hfar := gravityPairStep_of_far (min delta_seconds (1.0 / 60.0)) b1 b2 h
  simp only [gravity_system, gravityPass, gravityVisitHead, List.map_cons,
    List.map_nil]
  rw [hfar.1, hfar.2]

/-- C1 witness: the spec's scenario — masses 1000 and 5 at distance 12 with
`dt = 1/60` — with the velocity deltas fully evaluated. -/
theorem gravity_two_body_velocity_witness :
    2.0 ≤ (lightBody.position - heavyBody.position).length ∧
    (gravity_system (1 / 60) [heavyBody, lightBody]).map (fun b => b.velocity) =
      [Vec3.smul (10.0 * 1000 * 5 / (12 * 12) / 1000 * (1 / 60) * 0.01)
        ⟨1, 0, 0⟩,
       Vec3.smul (-(10.0 * 1000 * 5 / (12 * 12) / 5 * (1 / 60) * 0.01))
        ⟨1, 0, 0⟩] := by
  refine ⟨heavy_light_far, ?_⟩
  rw [gravity_two_body_velocity (1 / 60) heavyBody lightBody heavy_light_far]
  rw [heavy_light_dist, heavy_light_vec]
  simp only [heavyBody, lightBody, GRAVITATIONAL_CONSTANT]
  rw [List.cons.injEq, List.cons.injEq]
  refine ⟨?_, ?_, rfl⟩ <;>
  · rw [Vec3.ext_iff]
    refine ⟨?_, ?_, ?_⟩ <;> norm_num [Vec3.smul]

/-- C2: for a pair at distance ≥ 2.0, the velocity delta applied to the
first body, rescaled by its mass, is exactly the opposite of the delta
applied to the second body rescaled by its mass (Newton's third law up to
the `1/mass` scaling). -/
theorem gravity_newton_third (dt : ℝ) (b1 b2 : Body)
    (h : 2.0 ≤ (b2.position - b1.position).length) :
    Vec3.smul b1.mass ((gravityPairStep dt b1 b2).1.velocity - b1.velocity) =
      -(Vec3.smul b2.mass
        ((gravityPairStep dt b1 b2).2.velocity - b2.velocity)) := by
  obtain ⟨h1, h2⟩ := gravityPairStep_of_far dt b1 b2 h
  have hd : (b2.position - b1.position).length ≠ 0 := by
    intro h0
    rw [h0] at h
    norm_num at h
  rw [h1, h2, Vec3.ext_iff]
  refine ⟨?_, ?_, ?_⟩ <;>
  · simp only [Vec3.add_x, Vec3.add_y, Vec3.add_z, Vec3.sub_x, Vec3.sub_y,
      Vec3.sub_z, Vec3.smul_x, Vec3.smul_y, Vec3.smul_z, Vec3.neg_x,
      Vec3.neg_y, Vec3.neg_z]
    by_cases hm1 : b1.mass = 0
    · simp [hm1]
    · by_cases hm2 : b2.mass = 0
      · simp [hm2]
      · field_simp
        ring

/-- C2 witness: Newton's third law pairing on the 1000/5 two-body scenario. -/
theorem gravity_newton_third_witness :
    2.0 ≤ (lightBody.position - heavyBody.position).length ∧
    Vec3.smul heavyBody.mass
        ((gravityPairStep (1 / 60) heavyBody lightBody).1.velocity -
          heavyBody.velocity) =
      -(Vec3.smul lightBody.mass
        ((gravityPairStep (1 / 60) heavyBody lightBody).2.velocity -
          lightBody.velocity)) :=
  ⟨heavy_light_far, gravity_newton_third (1 / 60) heavyBody lightBody
    heavy_light_far⟩

/-- C3: a full pass of the force accumulator over bodies whose pairwise
distances are all ≥ 2.0 leaves the total momentum `Σ mass · velocity`
unchanged. -/
theorem gravity_conserves_momentum (delta_seconds : ℝ) (bodies : List Body)
    (h : bodies.Pairwise (fun a b => 2.0 ≤ (b.position - a.position).length)) :
    momentum (gravity_system delta_seconds bodies) = momentum bodies :=
  gravityPass_momentum (min delta_seconds (1.0 / 60.0)) bodies

/-- C3 witness: the scene spawned by `setup_scene` has all pairwise
distances ≥ 2.0 and its momentum is preserved by a gravity pass. -/
theorem gravity_conserves_momentum_witness :
    setup_scene.Pairwise
        (fun a b => 2.0 ≤ (b.position - a.position).length) ∧
    momentum (gravity_system (1 / 60) setup_scene) = momentum setup_scene := by
  have haxis : ∀ (p q : Body) (c : ℝ), q.position - p.position = ⟨c, 0, 0⟩ →
      0 ≤ c → 2 ≤ c → 2.0 ≤ (q.position - p.position).length := by
    intro p q c hv h0 h2
    rw [hv, length_axis_x c h0]
    norm_num
    exact h2
  have hsi : 2.0 ≤ (innerPlanet.position - sun.position).length :=
    haxis _ _ 12 (by rw [Vec3.ext_iff]; norm_num [innerPlanet, sun])
      (by norm_num) (by norm_num)
  have hsm : 2.0 ≤ (middlePlanet.position - sun.position).length :=
    haxis _ _ 20 (by rw [Vec3.ext_iff]; norm_num [middlePlanet, sun])
      (by norm_num) (by norm_num)
  have hso : 2.0 ≤ (outerPlanet.position - sun.position).length :=
    haxis _ _ 30 (by rw [Vec3.ext_iff]; norm_num [outerPlanet, sun])
      (by norm_num) (by norm_num)
  have him : 2.0 ≤ (middlePlanet.position - innerPlanet.position).length :=
    haxis _ _ 8 (by rw [Vec3.ext_iff]; norm_num [middlePlanet, innerPlanet])
      (by norm_num) (by norm_num)
  have hio : 2.0 ≤ (outerPlanet.position - innerPlanet.position).length :=
    haxis _ _ 18 (by rw [Vec3.ext_iff]; norm_num [outerPlanet, innerPlanet])
      (by norm_num) (by norm_num)
  have hmo : 2.0 ≤ (outerPlanet.position - middlePlanet.position).length :=
    haxis _ _ 10 (by rw [Vec3.ext_iff]; norm_num [outerPlanet, middlePlanet])
      (by norm_num) (by norm_num)
  have hp : setup_scene.Pairwise
      (fun a b => 2.0 ≤ (b.position - a.position).length) := by
    unfold setup_scene
    refine List.Pairwise.cons ?_ (List.Pairwise.cons ?_
      (List.Pairwise.cons ?_ (List.pairwise_singleton _ _)))
    · intro a ha
      fin_cases ha
      · exact hsi
      · exact hsm
      · exact hso
    · intro a ha
      fin_cases ha
      · exact him
      · exact hio
    · intro a ha
      fin_cases ha
      exact hmo
  exact ⟨hp, gravity_conserves_momentum (1 / 60) setup_scene hp⟩

theorem normalize_or_zero_zero : Vec3.normalize_or_zero 0 = 0 := by
  unfold Vec3.normalize_or_zero
  rw [if_neg]
  simp [Vec3.length, Vec3.dot]

/-- The translation written by `camera_controller` is always
`translation + normalize_or_zero(velocity) · delta_seconds · speed`, with the
raw (unclamped) frame time. -/
theorem camera_controller_translation (delta_seconds : ℝ)
    (events : List MouseMotion) (rmb : Bool) (keys : KeyState)
    (t : CameraTransform) (c : CameraController) :
    (camera_controller delta_seconds events rmb keys t c).translation =
      t.translation + Vec3.smul (delta_seconds * c.speed)
        (Vec3.normalize_or_zero (moveVelocity t keys)) := by
  simp only [camera_controller]
  split <;> rfl

/-- The pitch component produced by one mouse-look step is always inside the
clamp interval. -/
theorem mouseLookStep_pitch_mem (s d : ℝ) (yp : ℝ × ℝ) (e : MouseMotion) :
    (mouseLookStep s d yp e).2 ∈ Set.Icc (-1.54 : ℝ) 1.54 := by
  simp only [mouseLookStep, Set.mem_Icc]
  exact ⟨le_max_left _ _, max_le (by norm_num) (min_le_right _ _)⟩

theorem foldl_mouseLook_pitch (s d : ℝ) (events : List MouseMotion)
    (yp : ℝ × ℝ) (h : yp.2 ∈ Set.Icc (-1.54 : ℝ) 1.54) :
    (events.foldl (mouseLookStep s d) yp).2 ∈ Set.Icc (-1.54 : ℝ) 1.54 := by
  induction events generalizing yp with
  | nil => exact h
  | cons e es ih => exact ih _ (mouseLookStep_pitch_mem s d yp e)

/-- C7: after a camera-rig update — whatever the buffered mouse-motion
events' cumulative magnitude — the pitch stays in `[-1.54, 1.54]`, provided
it was in that interval before the update (it is at spawn, and this theorem
shows every update preserves it). -/
theorem camera_pitch_clamped (delta_seconds : ℝ) (events : List MouseMotion)
    (rmb : Bool) (keys : KeyState) (t : CameraTransform) (c : CameraController)
    (h : t.pitch ∈ Set.Icc (-1.54 : ℝ) 1.54) :
    (camera_controller delta_seconds events rmb keys t c).pitch ∈
      Set.Icc (-1.54 : ℝ) 1.54 := by
  simp only [camera_controller]
  split
  · exact foldl_mouseLook_pitch _ _ events _ h
  · exact h

/-- C7 witness: a huge single mouse event (`dy = 1000`) from a level camera
still leaves the pitch inside the clamp interval. -/
theorem camera_pitch_clamped_witness :
    ((⟨⟨0, 0, 0⟩, 0, 0⟩ : CameraTransform)).pitch ∈
      Set.Icc (-1.54 : ℝ) 1.54 ∧
    (camera_controller 1 [⟨0, 1000⟩] true
        ⟨false, false, false, false, false, false⟩
        ⟨⟨0, 0, 0⟩, 0, 0⟩ ⟨2, 25⟩).pitch ∈ Set.Icc (-1.54 : ℝ) 1.54 := by
  have h0 : ((⟨⟨0, 0, 0⟩, 0, 0⟩ : CameraTransform)).pitch ∈
      Set.Icc (-1.54 : ℝ) 1.54 := by
    rw [Set.mem_Icc]
    norm_num
  exact ⟨h0, camera_pitch_clamped 1 [⟨0, 1000⟩] true _ _ _ h0⟩

/-- C8: camera translation is the normalize-or-zero of the summed key
vectors scaled by speed and frame time: no keys, W+S, and A+D all give zero
net translation, and for every key combination the direction vector has
length at most 1 before the speed/frame-time scaling. -/
theorem camera_move_normalized (delta_seconds : ℝ)
    (events : List MouseMotion) (rmb : Bool) (t : CameraTransform)
    (c : CameraController) :
    (camera_controller delta_seconds events rmb
        ⟨false, false, false, false, false, false⟩ t c).translation =
      t.translation ∧
    (camera_controller delta_seconds events rmb
        ⟨true, true, false, false, false, false⟩ t c).translation =
      t.translation ∧
    (camera_controller delta_seconds events rmb
        ⟨false, false, true, true, false, false⟩ t c).translation =
      t.translation ∧
    ∀ keys : KeyState,
      (Vec3.normalize_or_zero (moveVelocity t keys)).length ≤ 1 := by
  have hmv0 : moveVelocity t ⟨false, false, false, false, false, false⟩ = 0 := by
    simp [moveVelocity]
  have hmvWS : moveVelocity t ⟨true, true, false, false, false, false⟩ = 0 := by
    simp [moveVelocity, Vec3.ext_iff]
  have hmvAD : moveVelocity t ⟨false, false, true, true, false, false⟩ = 0 := by
    simp [moveVelocity, Vec3.ext_iff]
  refine ⟨?_, ?_, ?_, fun keys => Vec3.length_normalize_or_zero_le _⟩
  · rw [camera_controller_translation, hmv0, normalize_or_zero_zero]
    simp
  · rw [camera_controller_translation, hmvWS, normalize_or_zero_zero]
    simp
  · rw [camera_controller_translation, hmvAD, normalize_or_zero_zero]
    simp

/-- C6 (amended): the force accumulator and the integrator clamp the frame
time to `min(dt, 1/60)`, but the camera rig scales its translation by the
raw, unclamped frame time. -/
theorem frame_time_usage (delta_seconds : ℝ) (bodies : List Body)
    (events : List MouseMotion) (rmb : Bool) (keys : KeyState)
    (t : CameraTransform) (c : CameraController) :
    gravity_system delta_seconds bodies =
      gravityPass (min delta_seconds (1.0 / 60.0)) bodies ∧
    movement_system delta_seconds bodies =
      movement_system (min delta_seconds (1.0 / 60.0)) bodies ∧
    (camera_controller delta_seconds events rmb keys t c).translation =
      t.translation + Vec3.smul (delta_seconds * c.speed)
        (Vec3.normalize_or_zero (moveVelocity t keys)) := by
  refine ⟨rfl, ?_, camera_controller_translation delta_seconds events rmb keys t c⟩
  simp only [movement_system, min_assoc, min_self]

/-- C6 counterexample: with frame time 1 s (> 1/60 s), holding W with the
spawned controller (speed 25) moves the camera by the full 25 world units —
`dt · speed` with the RAW `dt` — which differs from what a dt clamp to 1/60
would give, refuting "no routine scales its update by an elapsed time
exceeding 1/60 s". -/
theorem camera_unclamped_dt_counterexample :
    (camera_controller 1 [] false ⟨true, false, false, false, false, false⟩
        ⟨⟨0, 0, 0⟩, 0, 0⟩ ⟨2, 25⟩).translation = ⟨0, 0, -25⟩ ∧
    (⟨0, 0, -25⟩ : Vec3) ≠
      Vec3.smul (min 1 (1.0 / 60.0) * 25) ⟨0, 0, -1⟩ := by
  constructor
  · rw [camera_controller_translation]
    have hmv : moveVelocity ⟨⟨0, 0, 0⟩, 0, 0⟩
        ⟨true, false, false, false, false, false⟩ = ⟨0, 0, -1⟩ := by
      rw [Vec3.ext_iff]
      norm_num [moveVelocity, localZ]
    rw [hmv]
    have hlen : (⟨0, 0, -1⟩ : Vec3).length = 1 := by
      unfold Vec3.length Vec3.dot
      norm_num
    have hnz : Vec3.normalize_or_zero ⟨0, 0, -1⟩ = ⟨0, 0, -1⟩ := by
      unfold Vec3.normalize_or_zero
      rw [hlen, if_pos (by norm_num : (0 : ℝ) < 1)]
      rw [Vec3.ext_iff]
      norm_num [Vec3.smul]
    rw [hnz, Vec3.ext_iff]
    norm_num [Vec3.smul]
  · intro hEq
    have hz := (Vec3.ext_iff.mp hEq).2.2
    have hmin : min (1 : ℝ) (1.0 / 60.0) = 1.0 / 60.0 :=
      min_eq_right (by norm_num)
    rw [Vec3.smul_z, hmin] at hz
    norm_num at hz

/-- C9 counterexample: the middle planet orbits at a strictly larger radius
than the inner planet (20 vs 12) yet its mass is strictly larger (8 vs 5),
so the spawned masses are not strictly decreasing with radius. -/
theorem setup_mass_not_decreasing :
    innerPlanet.position.length < middlePlanet.position.length ∧
    ¬ (middlePlanet.mass < innerPlanet.mass) := by
  constructor
  · have h1 : innerPlanet.position.length = 12.0 := by
      simp only [innerPlanet]
      exact length_axis_x 12.0 (by norm_num)
    have h2 : middlePlanet.position.length = 20.0 := by
      simp only [middlePlanet]
      exact length_axis_x 20.0 (by norm_num)
    rw [h1, h2]
    norm_num
  · simp only [innerPlanet, middlePlanet]
    norm_num

/-- C9 (amended): `setup_scene` spawns the stationary sun — mass 1000, zero
velocity, at the origin — and three bodies at strictly increasing radii 12,
20, 30 on the x-axis whose initial velocities are purely tangential
(orthogonal to the radius vector) with strictly decreasing magnitudes 0.8,
0.6, 0.4; their masses are 5, 8 and 6, which are NOT strictly decreasing
with radius. -/
theorem setup_scene_spec :
    setup_scene = [sun, innerPlanet, middlePlanet, outerPlanet] ∧
    sun.mass = 1000 ∧ sun.velocity = 0 ∧ sun.position = ⟨0, 0, 0⟩ ∧
    innerPlanet.position.length = 12 ∧ middlePlanet.position.length = 20 ∧
    outerPlanet.position.length = 30 ∧
    Vec3.dot innerPlanet.velocity innerPlanet.position = 0 ∧
    Vec3.dot middlePlanet.velocity middlePlanet.position = 0 ∧
    Vec3.dot outerPlanet.velocity outerPlanet.position = 0 ∧
    innerPlanet.velocity.length = 0.8 ∧ middlePlanet.velocity.length = 0.6 ∧
    outerPlanet.velocity.length = 0.4 ∧ (0.4 : ℝ) < 0.6 ∧ (0.6 : ℝ) < 0.8 ∧
    innerPlanet.mass = 5 ∧ middlePlanet.mass = 8 ∧ outerPlanet.mass = 6 := by
  refine ⟨rfl, by norm_num [sun], rfl, rfl, ?_, ?_, ?_, ?_, ?_, ?_, ?_, ?_,
    ?_, by norm_num, by norm_num, by norm_num [innerPlanet],
    by norm_num [middlePlanet], by norm_num [outerPlanet]⟩
  · simp only [innerPlanet]
    rw [length_axis_x 12.0 (by norm_num)]
    norm_num
  · simp only [middlePlanet]
    rw [length_axis_x 20.0 (by norm_num)]
    norm_num
  · simp only [outerPlanet]
    rw [length_axis_x 30.0 (by norm_num)]
    norm_num
  · norm_num [innerPlanet, Vec3.dot]
  · norm_num [middlePlanet, Vec3.dot]
  · norm_num [outerPlanet, Vec3.dot]
  · simp only [innerPlanet]
    rw [length_axis_z 0.8 (by norm_num)]
  · simp only [middlePlanet]
    rw [length_axis_z 0.6 (by norm_num)]
  · simp only [outerPlanet]
    rw [length_axis_z 0.4 (by norm_num)]

end
